import Mathlib

set_option maxRecDepth 100000

set_option linter.unusedVariables false

/-!
Shallow embedding of the Vani-AI call-session orchestrator
(`src/app/api/retell_ws.py`, with the Reasoning Service wrapper
`src/app/services/llm.py`), faithful to the Python source.

External collaborators (RAG context provider, OpenAI chat completion,
database engine, websocket transport, uuid generator) are modelled as
oracle inputs threaded through an `Env` record; everything the session
loop itself computes is embedded as executable Lean functions.
-/

namespace Vani

/-- A `(role, content)` chat message, as stored in `CONVERSATION_HISTORY`
and in Retell transcripts. -/
structure Msg where
  role : String
  content : String
deriving Repr, DecidableEq

abbrev History := List Msg

/-- A parsed JSON object, modelled as an association list of string
fields (the dispatcher only ever reads string-valued fields via
`args.get(key, default)`). -/
abbrev JsonObj := List (String × String)

/-- Python `args.get(k, d)` on a parsed JSON object. -/
def jget (o : JsonObj) (k d : String) : String :=
  match o.lookup k with
  | some v => v
  | none => d

/-- A tool invocation as returned by the Reasoning Service.
`arguments` models the raw JSON-string payload by its parse outcome:
`none` when `json.loads` would raise, `some o` when it parses to `o`. -/
structure ToolCall where
  name : String
  arguments : Option JsonObj
deriving Repr, DecidableEq

/-- The Reasoning Service result: spoken content plus tool calls
(the dict returned by `get_ai_response`). -/
structure AIResponse where
  content : String
  tool_calls : List ToolCall
deriving Repr, DecidableEq

/-- An inbound wire frame (`websocket.receive_json`): keepalive,
turn event, or anything else (ignored defensively). -/
inductive Event where
  | pingPong (timestamp : Nat)
  | responseRequired (response_id : Nat) (transcript : List Msg)
  | other
deriving Repr, DecidableEq

/-- An outbound wire frame (`websocket.send_json`). -/
inductive Frame where
  | pingPong (timestamp : Nat)
  | response (response_id : Nat) (content : String)
      (content_complete : Bool) (end_call : Bool)
deriving Repr, DecidableEq

/-- A row inserted into the `grievances` table, with exactly the columns
bound in the `INSERT` statement of `retell_ws.py`. -/
structure GrievanceRow where
  ticket_id : String
  citizen_name : String
  description : String
  department : String
  status : String
  call_id : String
deriving Repr, DecidableEq

/-- The `NEW_GRIEVANCE` event broadcast to dashboard observers.
The fields taken from `args.get(k)` (no default) are `Option`s. -/
structure BroadcastEvent where
  event : String
  ticket_id : String
  citizen_name : Option String
  issue : Option String
  department : Option String
  call_id : String
deriving Repr, DecidableEq

/-- A record of one invocation of an external collaborator made by the
session loop during a turn. -/
inductive ServiceCall where
  | getContext (query : String)
  | getAiResponse (messages : History) (context : String)
      (user_confirmed : Bool)
deriving Repr, DecidableEq

/-- Oracle inputs for one session: what the external collaborators
would return, and the uuid supply for ticket-id generation.
`dbOk` models whether the database transaction commits (the
`except Exception` branch fires when it is `false`). -/
structure Env where
  getContext : String → String
  ai : History → String → Bool → AIResponse
  dbOk : Bool
  gen : Nat → String

/-- The `CONFIRM_WORDS` list from `retell_ws.py`. -/
def CONFIRM_WORDS : List String :=
  ["yes", "yeah", "yep", "please", "go ahead", "confirm", "sure", "okay", "ok"]

/-- Tests whether the first character list starts the second. -/
def startsWithChars : List Char → List Char → Bool
  | [], _ => true
  | _ :: _, [] => false
  | a :: as, b :: bs => a == b && startsWithChars as bs

/-- Python's substring containment `needle in hay`, over characters. -/
def containsSub (needle : List Char) : List Char → Bool
  | [] => needle.isEmpty
  | c :: t => startsWithChars needle (c :: t) || containsSub needle t

/-- Python `s.lower()` (ASCII case folding), as a character list. -/
def toLowerChars (s : String) : List Char :=
  s.toList.map Char.toLower

/-- The `detect_confirmation` helper from `retell_ws.py`: case-insensitive
substring match of any confirmation keyword in the utterance. -/
def detect_confirmation (text : String) : Bool :=
  let text_lower := toLowerChars text
  CONFIRM_WORDS.any (fun word => containsSub word.toList text_lower)

/-- Whitespace for Python `str.strip()` (ASCII whitespace). -/
def isSpaceChar (c : Char) : Bool :=
  c == ' ' || c == '\t' || c == '\n' || c == '\r'

/-- Drops leading and trailing whitespace from a character list. -/
def trimChars (l : List Char) : List Char :=
  ((l.dropWhile isSpaceChar).reverse.dropWhile isSpaceChar).reverse

/-- Python `s.strip()`. -/
def strip (s : String) : String :=
  ⟨trimChars s.toList⟩

/-- Splits a character list into space-separated words. -/
def wordsAux : List Char → List Char → List (List Char)
  | [], acc => [acc.reverse]
  | c :: t, acc =>
      if c == ' ' then acc.reverse :: wordsAux t []
      else wordsAux t (c :: acc)

/-- The standalone space-separated words of a string. -/
def words (s : String) : List String :=
  (wordsAux s.toList []).map (fun l => ⟨l⟩)

/-- The `extract_latest_user_message` helper from `retell_ws.py`: the most
recent user-role entry of the transcript, stripped; `""` when there is
none. -/
def extract_latest_user_message (transcript : List Msg) : String :=
  match transcript.reverse.find? (fun item => item.role == "user") with
  | some item => strip item.content
  | none => ""

/-- The initial greeting text sent on connection accept. -/
def greeting : String :=
  "Namaste, I am Vani from the Delhi Government. How can I help you today?"

/-- The spoken success text after a registration, embedding the ticket id. -/
def registeredText (ticket_id : String) : String :=
  "Thank you. Your complaint has been registered successfully. " ++
  "Your ticket number is " ++ ticket_id ++ ". " ++
  "You will receive updates on your registered mobile number. " ++
  "Is there anything else I can help you with?"

/-- The apology substituted when the registration `try` block raises
(JSON parse failure or database error). -/
def dbErrorApology : String :=
  "I apologize, but I'm having trouble registering your complaint right now. " ++
  "Please try calling again or visit the nearest citizen service center."

/-- The clarification fallback used when `spoken_text` ends up empty. -/
def emptyFallback : String :=
  "I'm sorry, could you please repeat that?"

/-- The mutable locals of the tool-handling loop in a single turn:
`spoken_text`, `complaint_registered`, `ticket_id`, plus the durable
effects accumulated so far and how many uuids have been drawn. -/
structure ToolLoopState where
  spoken_text : String
  complaint_registered : Bool
  ticket_id : Option String
  inserts : List GrievanceRow
  broadcasts : List BroadcastEvent
  uuidsDrawn : Nat
deriving Repr

/-- The grievance row built from the parsed arguments, with the same
defaults as the Python `INSERT` parameters. -/
def mkRow (ticket_id : String) (args : JsonObj) (call_id : String) :
    GrievanceRow :=
  { ticket_id := ticket_id
    citizen_name := jget args "name" "Unknown"
    description := jget args "issue" ""
    department := jget args "department" "General/PGC"
    status := "OPEN"
    call_id := call_id }

/-- The `NEW_GRIEVANCE` broadcast payload built from the parsed
arguments (these fields use `args.get(k)` with no default). -/
def mkBroadcast (ticket_id : String) (args : JsonObj) (call_id : String) :
    BroadcastEvent :=
  { event := "NEW_GRIEVANCE"
    ticket_id := ticket_id
    citizen_name := args.lookup "name"
    issue := args.lookup "issue"
    department := args.lookup "department"
    call_id := call_id }

/-- One iteration of `for tool in tool_calls` in `retell_ws.py`.
Only `register_grievance` is handled; `json.loads` failure and database
failure both land in the `except` branch, which substitutes
`dbErrorApology` and performs no write. After a successful write the
broadcast is sent and `spoken_text` is overridden with the success
text. -/
def processTool (env : Env) (call_id : String) (s : ToolLoopState)
    (tool : ToolCall) : ToolLoopState :=
  if tool.name == "register_grievance" then
    match tool.arguments with
    | none =>
        { s with spoken_text := dbErrorApology }
    | some args =>
        let ticket := "DEL-" ++ env.gen s.uuidsDrawn
        if env.dbOk then
          { spoken_text := registeredText ticket
            complaint_registered := true
            ticket_id := some ticket
            inserts := s.inserts ++ [mkRow ticket args call_id]
            broadcasts := s.broadcasts ++ [mkBroadcast ticket args call_id]
            uuidsDrawn := s.uuidsDrawn + 1 }
        else
          { s with
              spoken_text := dbErrorApology
              ticket_id := some ticket
              uuidsDrawn := s.uuidsDrawn + 1 }
  else s

/-- Everything one loop iteration produces: the updated history, the
frames sent, the collaborator invocations made, and the durable
effects. -/
structure StepResult where
  history : History
  frames : List Frame
  calls : List ServiceCall
  inserts : List GrievanceRow
  broadcasts : List BroadcastEvent
deriving Repr

/-- The history-bounding statement at the end of a processed turn:
`if len(h) > 20: h = h[-18:]`. -/
def trimHistory (h : History) : History :=
  if h.length > 20 then h.drop (h.length - 18) else h

/-- One iteration of the `while True` receive loop of `retell_llm_ws`:
keepalive echo, `response_required` turn processing, or a defensive
no-op for any other frame shape. -/
def step (env : Env) (call_id : String) (h : History) (ev : Event) :
    StepResult :=
  match ev with
  | .pingPong ts =>
      { history := h, frames := [.pingPong ts], calls := [],
        inserts := [], broadcasts := [] }
  | .other =>
      { history := h, frames := [], calls := [],
        inserts := [], broadcasts := [] }
  | .responseRequired response_id transcript =>
      let user_text := extract_latest_user_message transcript
      if user_text == "" then
        { history := h, frames := [], calls := [],
          inserts := [], broadcasts := [] }
      else
        let h1 := h ++ [⟨"user", user_text⟩]
        let context := env.getContext user_text
        let user_confirmed := detect_confirmation user_text
        let ai := env.ai h1 context user_confirmed
        let init : ToolLoopState :=
          { spoken_text := strip ai.content
            complaint_registered := false
            ticket_id := none
            inserts := []
            broadcasts := []
            uuidsDrawn := 0 }
        let ls := ai.tool_calls.foldl (processTool env call_id) init
        let spoken :=
          if ls.spoken_text == "" then emptyFallback else ls.spoken_text
        let h2 := h1 ++ [⟨"assistant", spoken⟩]
        { history := trimHistory h2
          frames := [.response response_id spoken true false]
          calls := [.getContext user_text,
                    .getAiResponse h1 context user_confirmed]
          inserts := ls.inserts
          broadcasts := ls.broadcasts }

/-- The initial greeting frame sent right after the handshake
(`response_id=0`, `content_complete=True`, `end_call=False`). -/
def greetingFrame : Frame :=
  .response 0 greeting true false

/-- The history right after the greeting is appended. -/
def initialHistory : History :=
  [⟨"assistant", greeting⟩]

/-- Folding the receive loop over a sequence of inbound events. -/
def runTurns (env : Env) (call_id : String) (h : History) :
    List Event → History
  | [] => h
  | ev :: evs => runTurns env call_id (step env call_id h ev).history evs

/-- The process-wide `CONVERSATION_HISTORY` dict: call_id → history. -/
abbrev SessionStore := List (String × History)

/-- Python dict assignment `CONVERSATION_HISTORY[call_id] = v`. -/
def storeSet (st : SessionStore) (call_id : String) (v : History) :
    SessionStore :=
  (call_id, v) :: st.filter (fun p => p.1 ≠ call_id)

/-- Python `CONVERSATION_HISTORY.pop(call_id, None)`: remove the key if
present, no-op otherwise. -/
def storePop (st : SessionStore) (call_id : String) : SessionStore :=
  st.filter (fun p => p.1 ≠ call_id)

/-- Python `call_id in CONVERSATION_HISTORY`. -/
def storeContains (st : SessionStore) (call_id : String) : Bool :=
  st.any (fun p => p.1 == call_id)

/-- The whole `retell_llm_ws` handler as it affects the session store:
the entry is created on accept, each processed event updates it, and
the `finally` block pops it on every exit path. `events` is the list
of inbound events actually processed before the connection ended —
a clean close, a transport error, or an exception mid-turn all
truncate this list, and all of them reach the `finally` pop. -/
def runSession (st : SessionStore) (call_id : String) (env : Env)
    (events : List Event) : SessionStore :=
  let st1 := storeSet st call_id initialHistory
  let finalHistory :=
    runTurns env call_id initialHistory events
  let st2 := storeSet st1 call_id finalHistory
  storePop st2 call_id

/-!
Embedding of the Reasoning Service wrapper `get_ai_response` in
`src/app/services/llm.py`. The OpenAI chat-completion round trip is an
oracle input: `Except.error e` models the call raising, `Except.ok msg`
models a returned message (whose `content` may be `None`).
-/

/-- A raw tool call as it appears on an OpenAI message
(`t.function.name`, `t.function.arguments` as a JSON string). -/
structure LlmToolCall where
  name : String
  arguments : String
deriving Repr, DecidableEq

/-- The OpenAI assistant message the completion call returns:
`content` is `None` or a string; `tool_calls` may be empty. -/
structure LlmMsg where
  content : Option String
  tool_calls : List LlmToolCall
deriving Repr, DecidableEq

/-- The dict `get_ai_response` returns. -/
structure LlmResponse where
  content : String
  tool_calls : List LlmToolCall
deriving Repr, DecidableEq

/-- The apology substituted when the completion call raises. -/
def llmApology : String :=
  "I apologize, I'm having technical difficulties. Please try again."

/-- The `get_ai_response` wrapper from `llm.py`. `messages`, `context` and
`user_confirmed` shape the prompt sent to the model; `modelResult` is
the outcome of the completion call for that prompt. The `try/except`
turns any raise into the apology with no tool calls; otherwise the
content is stripped, an empty content with no tool calls becomes the
clarification fallback, and tool calls are passed through. -/
def get_ai_response (messages : History) (context : String)
    (user_confirmed : Bool) (modelResult : Except String LlmMsg) :
    LlmResponse :=
  match modelResult with
  | .error _ => { content := llmApology, tool_calls := [] }
  | .ok msg =>
      let spoken_text :=
        match msg.content with
        | some s => strip s
        | none => ""
      let spoken_text :=
        if spoken_text == "" && msg.tool_calls == [] then
          emptyFallback
        else spoken_text
      { content := spoken_text, tool_calls := msg.tool_calls }

/-!
Concrete oracle environments used to evaluate the embedding on
concrete turns.
-/

/-- A benign oracle: empty context, a plain spoken answer, no tool
calls, database available, sequential uuid supply. -/
def envPlain : Env :=
  { getContext := fun _ => ""
    ai := fun _ _ _ => { content := "How can I help you?", tool_calls := [] }
    dbOk := true
    gen := fun n => toString n }

/-- Tool arguments with every required field of `register_grievance`
present. -/
def fullArgs : JsonObj :=
  [("name", "Rajesh Kumar"), ("issue", "dirty water"),
   ("location", "Rohini Sector 7"), ("contact", "9876543210"),
   ("department", "Water (DJB)")]

/-- Tool arguments missing the required `contact` field. -/
def argsNoContact : JsonObj :=
  [("name", "Asha"), ("issue", "streetlight broken"),
   ("location", "Dwarka"), ("department", "Electricity")]

/-- An oracle whose Reasoning Service returns one `register_grievance`
tool call with complete arguments on every turn. -/
def envRegisterOnce : Env :=
  { envPlain with
      ai := fun _ _ _ =>
        { content := ""
          tool_calls := [⟨"register_grievance", some fullArgs⟩] } }

/-- An oracle whose Reasoning Service returns the same
`register_grievance` tool call twice in one turn (model repetition). -/
def envRegisterTwice : Env :=
  { envPlain with
      ai := fun _ _ _ =>
        { content := ""
          tool_calls := [⟨"register_grievance", some fullArgs⟩,
                         ⟨"register_grievance", some fullArgs⟩] } }

/-- An oracle whose Reasoning Service returns a `register_grievance`
tool call whose arguments are missing `contact`. -/
def envRegisterNoContact : Env :=
  { envPlain with
      ai := fun _ _ _ =>
        { content := ""
          tool_calls := [⟨"register_grievance", some argsNoContact⟩] } }

/-- A frame carries `end_call = false` unless it is a reply frame with
`end_call = true`; keepalive echoes carry no such field. -/
def frameNoEndCall : Frame → Bool
  | .pingPong _ => true
  | .response _ _ _ end_call => !end_call

/-!
Claim theorems.
-/

/-- C7: whenever the underlying chat-completion call raises, for every
input `(messages, context, user_confirmed)`, `get_ai_response` returns
the fixed apology text with an empty tool-call list — the exception
never propagates to the session loop (the embedding is a total
function on the `Except.error` oracle outcome). -/
theorem C7_llm_failure_apology (messages : History) (context : String)
    (user_confirmed : Bool) (e : String) :
    get_ai_response messages context user_confirmed (.error e) =
      { content := llmApology, tool_calls := [] } := rfl

/-- C8: on an inbound `ping_pong` frame the session loop emits exactly
one `ping_pong` frame with the same timestamp, invokes no external
collaborator (no Context Provider call, no Reasoning Service call),
performs no insert and no broadcast, and leaves the history — the
session's only mutable state — unchanged. -/
theorem C8_ping_pong_echo (env : Env) (call_id : String) (h : History)
    (ts : Nat) :
    step env call_id h (.pingPong ts) =
      { history := h, frames := [.pingPong ts], calls := [],
        inserts := [], broadcasts := [] } := rfl

/-- C9: the utterance "my pipe is broken" contains no affirmation word
as a standalone word (splitting on spaces), yet `detect_confirmation`
returns `true` on it — "ok" occurs inside "broken" — so the session
loop passes `user_confirmed = true` to the Reasoning Service on a turn
with no actual affirmative from the user. -/
theorem C9_substring_false_positive :
    detect_confirmation "my pipe is broken" = true
    ∧ ((words "my pipe is broken").all
        (fun w => !(CONFIRM_WORDS.contains w))) = true
    ∧ containsSub "ok".toList (toLowerChars "my pipe is broken") = true
    ∧ (step envPlain "call1" []
        (.responseRequired 1 [⟨"user", "my pipe is broken"⟩])).calls =
      [.getContext "my pipe is broken",
       .getAiResponse [⟨"user", "my pipe is broken"⟩] "" true] := by
  refine ⟨by decide, by decide, by decide, ?_⟩
  rfl

/-- C10: every reply frame the session loop can emit — the initial
greeting frame and the single frame of any processed turn — carries
`end_call = false`; the orchestrator never signals call termination. -/
theorem C10_never_end_call (env : Env) (call_id : String) (h : History)
    (ev : Event) :
    ((greetingFrame :: (step env call_id h ev).frames).all frameNoEndCall)
      = true := by
  cases ev with
  | pingPong ts => rfl
  | other => rfl
  | responseRequired rid tr =>
      simp only [step]
      split
      · rfl
      · simp [greetingFrame, frameNoEndCall]

/-- Trimming never leaves more than the 20-entry cap. -/
theorem trimHistory_length_le (h : History) :
    (trimHistory h).length ≤ 20 := by
  unfold trimHistory
  split
  next hgt => simp only [List.length_drop]; omega
  next hle => omega

/-- A single loop iteration keeps the history within the cap. -/
theorem step_history_length_le (env : Env) (call_id : String)
    (h : History) (ev : Event) (hh : h.length ≤ 20) :
    (step env call_id h ev).history.length ≤ 20 := by
  cases ev with
  | pingPong ts => exact hh
  | other => exact hh
  | responseRequired rid tr =>
      simp only [step]
      split
      · exact hh
      · exact trimHistory_length_le _

/-- The receive loop keeps the history within the cap across any
sequence of inbound events. -/
theorem runTurns_length_le (env : Env) (call_id : String)
    (events : List Event) (h : History) (hh : h.length ≤ 20) :
    (runTurns env call_id h events).length ≤ 20 := by
  induction events generalizing h with
  | nil => exact hh
  | cons ev evs ih => exact ih _ (step_history_length_le env call_id h ev hh)

/-- C5: starting from the post-greeting history, after any sequence of
processed turns the history length never exceeds the 20-entry cap; and
whenever a history exceeds the cap, the trim keeps exactly the 18 most
recent entries as a suffix, i.e. in original insertion order with the
oldest entries dropped. -/
theorem C5_history_bounded (env : Env) (call_id : String)
    (events : List Event) (h2 : History) (hover : 20 < h2.length) :
    (runTurns env call_id initialHistory events).length ≤ 20
    ∧ trimHistory h2 = h2.drop (h2.length - 18)
    ∧ (trimHistory h2).length = 18
    ∧ trimHistory h2 <:+ h2 := by
  refine ⟨runTurns_length_le env call_id events initialHistory (by decide),
    ?_, ?_, ?_⟩
  · unfold trimHistory
    rw [if_pos hover]
  · unfold trimHistory
    rw [if_pos hover]
    simp only [List.length_drop]
    omega
  · unfold trimHistory
    rw [if_pos hover]
    exact List.drop_suffix _ _

/-- A history of 21 one-word user entries, just over the cap. -/
def longHistory : History := List.replicate 21 ⟨"user", "x"⟩

/-- Witness for C5 at a concrete event list and a concrete 21-entry
history. -/
theorem C5_history_bounded_witness :
    (runTurns envPlain "call1" initialHistory
      [Event.responseRequired 1 [⟨"user", "hello"⟩]]).length ≤ 20
    ∧ trimHistory longHistory = longHistory.drop (longHistory.length - 18)
    ∧ (trimHistory longHistory).length = 18
    ∧ trimHistory longHistory <:+ longHistory :=
  C5_history_bounded envPlain "call1"
    [Event.responseRequired 1 [⟨"user", "hello"⟩]] longHistory (by decide)

/-- Popping a key removes every entry for it. -/
theorem storeContains_storePop (st : SessionStore) (k : String) :
    storeContains (storePop st k) k = false := by
  simp only [storeContains, storePop, List.any_eq_false]
  intro p hp
  rcases List.mem_filter.mp hp with ⟨_, hne⟩
  simpa using of_decide_eq_true hne

/-- Popping an absent key is a no-op. -/
theorem storePop_absent (st : SessionStore) (k : String)
    (habs : storeContains st k = false) : storePop st k = st := by
  simp only [storeContains, List.any_eq_false] at habs
  simp only [storePop]
  apply List.filter_eq_self.mpr
  intro p hp
  have := habs p hp
  simp at this ⊢
  exact this

/-- C6: after the session task for a `call_id` exits — quantified over
every processed-event prefix, which covers clean close, transport
error, and an exception mid-turn, since the `finally` pop runs on all
of them — the Session Store no longer contains that `call_id`;
moreover removal is idempotent and removing an absent key is a
no-op. -/
theorem C6_cleanup_guarantee (st : SessionStore) (call_id : String)
    (env : Env) (events : List Event) :
    storeContains (runSession st call_id env events) call_id = false
    ∧ storePop (storePop st call_id) call_id = storePop st call_id
    ∧ (storeContains st call_id = false → storePop st call_id = st) := by
  refine ⟨?_, storePop_absent _ _ (storeContains_storePop st call_id),
    storePop_absent st call_id⟩
  simp only [runSession]
  exact storeContains_storePop _ _

/-- Witness for C6 at a concrete store, call and event list, including
the absent-key no-op at a store not containing the key. -/
theorem C6_cleanup_guarantee_witness :
    storeContains (runSession [("other", [])] "call1" envPlain
      [Event.pingPong 7]) "call1" = false
    ∧ storePop [(("other" : String), ([] : History))] "call1" =
      [("other", [])] :=
  ⟨(C6_cleanup_guarantee [("other", [])] "call1" envPlain
      [Event.pingPong 7]).1,
   (C6_cleanup_guarantee [("other", [])] "call1" envPlain
      [Event.pingPong 7]).2.2 (by decide)⟩

/-- A tool call that is not named `register_grievance` leaves the loop
state untouched. -/
theorem processTool_other (env : Env) (call_id : String)
    (s : ToolLoopState) (tc : ToolCall)
    (hname : tc.name ≠ "register_grievance") :
    processTool env call_id s tc = s := by
  unfold processTool
  rw [if_neg]
  simpa using hname

/-- If no returned tool call is named `register_grievance`, the tool
loop is a no-op. -/
theorem foldl_processTool_no_register (env : Env) (call_id : String)
    (tools : List ToolCall) (s : ToolLoopState)
    (hno : ∀ tc ∈ tools, tc.name ≠ "register_grievance") :
    tools.foldl (processTool env call_id) s = s := by
  induction tools generalizing s with
  | nil => rfl
  | cons tc rest ih =>
      have h1 := processTool_other env call_id s tc (hno tc (by simp))
      simp only [List.foldl_cons, h1]
      exact ih s (fun x hx => hno x (by simp [hx]))

/-- C1 (amended): a `user_confirmed = false` turn performs no
registration write provided the Reasoning Service returns no
`register_grievance` tool call; the dispatch loop itself never
re-checks `user_confirmed`, so the confirmation gate is enforced only
by the instruction given to the Reasoning Service. -/
theorem C1_no_write_without_register_tool (env : Env) (call_id : String)
    (h : History) (ev : Event)
    (hno : ∀ ms c b, ∀ tc ∈ (env.ai ms c b).tool_calls,
      tc.name ≠ "register_grievance") :
    (step env call_id h ev).inserts = []
    ∧ (step env call_id h ev).broadcasts = [] := by
  cases ev with
  | pingPong ts => exact ⟨rfl, rfl⟩
  | other => exact ⟨rfl, rfl⟩
  | responseRequired rid tr =>
      simp only [step]
      split
      · exact ⟨rfl, rfl⟩
      · rw [foldl_processTool_no_register _ _ _ _ (hno _ _ _)]
        exact ⟨rfl, rfl⟩

/-- Witness for the amended C1 at a concrete turn whose Reasoning
Service returns no tool calls. -/
theorem C1_no_write_without_register_tool_witness :
    (step envPlain "call1" []
      (.responseRequired 1 [⟨"user", "water problem"⟩])).inserts = []
    ∧ (step envPlain "call1" []
      (.responseRequired 1 [⟨"user", "water problem"⟩])).broadcasts = [] :=
  C1_no_write_without_register_tool envPlain "call1" []
    (.responseRequired 1 [⟨"user", "water problem"⟩])
    (by intro ms c b tc htc; simp [envPlain] at htc)

/-- C1 counterexample: on the turn "water problem" the Confirmation
Detector reports `false`, yet when the Reasoning Service returns a
`register_grievance` tool call the dispatcher still executes the
grievance insert — the claim's "regardless of what tool calls the
Reasoning Service returns" fails on the code. -/
theorem C1_unconfirmed_write_counterexample :
    detect_confirmation "water problem" = false
    ∧ (step envRegisterOnce "call1" []
        (.responseRequired 1 [⟨"user", "water problem"⟩])).inserts =
      [{ ticket_id := "DEL-0", citizen_name := "Rajesh Kumar",
         description := "dirty water", department := "Water (DJB)",
         status := "OPEN", call_id := "call1" }] :=
  ⟨by decide, by decide⟩

/-- With the database available, the tool loop performs exactly one
insert per `register_grievance` tool call with parseable arguments —
there is no idempotency guard de-duplicating repeated calls. -/
theorem foldl_processTool_insert_count (env : Env) (call_id : String)
    (tools : List ToolCall) (s : ToolLoopState) (hdb : env.dbOk = true) :
    ((tools.foldl (processTool env call_id) s).inserts).length =
      s.inserts.length +
      (tools.filter (fun tc =>
        tc.name == "register_grievance" && tc.arguments.isSome)).length := by
  induction tools generalizing s with
  | nil => simp
  | cons tc rest ih =>
      simp only [List.foldl_cons, List.filter_cons]
      by_cases hname : tc.name = "register_grievance"
      · cases harg : tc.arguments with
        | none =>
            have hstep : processTool env call_id s tc =
                { s with spoken_text := dbErrorApology } := by
              unfold processTool
              rw [if_pos (by simpa using hname), harg]
            rw [hstep, ih]
            simp [hname, harg]
        | some args =>
            have hstep : processTool env call_id s tc =
                { spoken_text :=
                    registeredText ("DEL-" ++ env.gen s.uuidsDrawn)
                  complaint_registered := true
                  ticket_id := some ("DEL-" ++ env.gen s.uuidsDrawn)
                  inserts := s.inserts ++
                    [mkRow ("DEL-" ++ env.gen s.uuidsDrawn) args call_id]
                  broadcasts := s.broadcasts ++
                    [mkBroadcast ("DEL-" ++ env.gen s.uuidsDrawn) args call_id]
                  uuidsDrawn := s.uuidsDrawn + 1 } := by
              simp [processTool, hname, harg, hdb]
            rw [hstep, ih]
            simp [hname, harg]
            omega
      · rw [processTool_other env call_id s tc hname, ih]
        simp [hname]

/-- C2 (amended): there is no at-most-once guard: with the database
available, a processed turn performs exactly one grievance insert per
`register_grievance` tool call (with parseable arguments) that the
Reasoning Service returns — so a repeated tool call produces a second
insert with a second generated ticket_id, and the reply embeds the
latest ticket_id rather than reusing the first. -/
theorem C2_insert_per_register_invocation (env : Env) (call_id : String)
    (h : History) (rid : Nat) (tr : List Msg) (hdb : env.dbOk = true)
    (hu : extract_latest_user_message tr ≠ "") :
    (step env call_id h (.responseRequired rid tr)).inserts.length =
      ((env.ai (h ++ [⟨"user", extract_latest_user_message tr⟩])
          (env.getContext (extract_latest_user_message tr))
          (detect_confirmation (extract_latest_user_message tr))).tool_calls.filter
        (fun tc =>
          tc.name == "register_grievance" && tc.arguments.isSome)).length := by
  simp only [step]
  rw [if_neg (by simpa using hu)]
  rw [foldl_processTool_insert_count env call_id _ _ hdb]
  simp

/-- Witness for the amended C2: a turn whose Reasoning Service repeats
the same `register_grievance` call twice yields exactly two inserts. -/
theorem C2_insert_per_register_invocation_witness :
    (step envRegisterTwice "call1" []
      (.responseRequired 1 [⟨"user", "yes please"⟩])).inserts.length =
      ((envRegisterTwice.ai [⟨"user", "yes please"⟩]
          (envRegisterTwice.getContext "yes please")
          (detect_confirmation "yes please")).tool_calls.filter
        (fun tc =>
          tc.name == "register_grievance" && tc.arguments.isSome)).length :=
  C2_insert_per_register_invocation envRegisterTwice "call1" [] 1
    [⟨"user", "yes please"⟩] (by decide) (by decide)

/-- C2 counterexample: when the Reasoning Service returns the same
`register_grievance` tool call twice in one turn, the code performs
two inserts with two distinct generated ticket_ids, and the reply
embeds the second ticket_id instead of reusing the first. -/
theorem C2_duplicate_write_counterexample :
    (step envRegisterTwice "call1" []
      (.responseRequired 1 [⟨"user", "yes please"⟩])).inserts.length = 2
    ∧ (step envRegisterTwice "call1" []
        (.responseRequired 1 [⟨"user", "yes please"⟩])).inserts.map
          GrievanceRow.ticket_id = ["DEL-0", "DEL-1"]
    ∧ (step envRegisterTwice "call1" []
        (.responseRequired 1 [⟨"user", "yes please"⟩])).frames =
      [.response 1 (registeredText "DEL-1") true false] :=
  ⟨by decide, by decide, by decide⟩

/-- C3 (amended): for every `response_required` event whose transcript
yields a non-empty user utterance, exactly one reply frame is emitted;
it carries the event's `response_id` and a non-empty content — for any
Reasoning Service outcome, including malformed tool arguments and
empty content. Events whose transcript contains no user utterance are
skipped with no reply frame at all. -/
theorem C3_one_reply_per_spoken_turn (env : Env) (call_id : String)
    (h : History) (rid : Nat) (tr : List Msg)
    (hu : extract_latest_user_message tr ≠ "") :
    ∃ s, (step env call_id h (.responseRequired rid tr)).frames =
        [.response rid s true false] ∧ s ≠ "" := by
  simp only [step]
  rw [if_neg (by simpa using hu)]
  refine ⟨_, rfl, ?_⟩
  split
  next => decide
  next hne => simpa using hne

/-- Witness for the amended C3 on a concrete turn whose Reasoning
Service returns malformed tool arguments and empty content. -/
theorem C3_one_reply_per_spoken_turn_witness :
    ∃ s, (step
        { envPlain with
            ai := fun _ _ _ =>
              { content := ""
                tool_calls := [⟨"register_grievance", none⟩] } }
        "call1" [] (.responseRequired 3 [⟨"user", "hello"⟩])).frames =
      [.response 3 s true false] ∧ s ≠ "" :=
  C3_one_reply_per_spoken_turn
    { envPlain with
        ai := fun _ _ _ =>
          { content := ""
            tool_calls := [⟨"register_grievance", none⟩] } }
    "call1" [] 3 [⟨"user", "hello"⟩] (by decide)

/-- C3 counterexample: a `response_required` event whose transcript
contains no user utterance produces no reply frame at all — the code
hits `continue` before sending anything, so "exactly one reply frame"
fails for such events. -/
theorem C3_no_reply_on_empty_transcript_counterexample :
    (step envPlain "call1" initialHistory
      (.responseRequired 5 [])).frames = []
    ∧ (step envPlain "call1" initialHistory
        (.responseRequired 5 [⟨"assistant", "hi"⟩])).frames = [] :=
  ⟨by decide, by decide⟩

/-- C4 (amended): the dispatcher performs no required-field validation:
a `register_grievance` invocation whose arguments parse but lack any
required field (for example `contact`) still performs the insert, with
defaults substituted (`name` → "Unknown", `issue` → "", `department` →
"General/PGC"); only a JSON parse failure skips the write, and the
reply is then the registration-trouble apology, not a field
clarification. -/
theorem C4_no_required_field_validation (env : Env) (call_id : String)
    (s : ToolLoopState) (args : JsonObj) (hdb : env.dbOk = true) :
    (processTool env call_id s ⟨"register_grievance", some args⟩).inserts =
      s.inserts ++ [mkRow ("DEL-" ++ env.gen s.uuidsDrawn) args call_id]
    ∧ (processTool env call_id s ⟨"register_grievance", none⟩).inserts =
      s.inserts
    ∧ (processTool env call_id s
        ⟨"register_grievance", none⟩).spoken_text = dbErrorApology := by
  refine ⟨?_, rfl, rfl⟩
  simp [processTool, hdb]

/-- Witness for the amended C4 at concrete arguments missing
`contact`. -/
theorem C4_no_required_field_validation_witness :
    (processTool envPlain "call1"
      { spoken_text := "", complaint_registered := false,
        ticket_id := none, inserts := [], broadcasts := [],
        uuidsDrawn := 0 }
      ⟨"register_grievance", some argsNoContact⟩).inserts =
      [] ++ [mkRow ("DEL-" ++ envPlain.gen 0) argsNoContact "call1"]
    ∧ (processTool envPlain "call1"
        { spoken_text := "", complaint_registered := false,
          ticket_id := none, inserts := [], broadcasts := [],
          uuidsDrawn := 0 }
        ⟨"register_grievance", none⟩).inserts = []
    ∧ (processTool envPlain "call1"
        { spoken_text := "", complaint_registered := false,
          ticket_id := none, inserts := [], broadcasts := [],
          uuidsDrawn := 0 }
        ⟨"register_grievance", none⟩).spoken_text = dbErrorApology :=
  C4_no_required_field_validation envPlain "call1"
    { spoken_text := "", complaint_registered := false,
      ticket_id := none, inserts := [], broadcasts := [],
      uuidsDrawn := 0 }
    argsNoContact (by decide)

/-- C4 counterexample: a `register_grievance` invocation whose
arguments are missing `contact` still results in a durable insert, and
the emitted reply is the registration-success message embedding the
ticket id — not a clarification request. -/
theorem C4_missing_contact_still_writes_counterexample :
    argsNoContact.lookup "contact" = none
    ∧ (step envRegisterNoContact "call1" []
        (.responseRequired 2 [⟨"user", "yes"⟩])).inserts =
      [{ ticket_id := "DEL-0", citizen_name := "Asha",
         description := "streetlight broken", department := "Electricity",
         status := "OPEN", call_id := "call1" }]
    ∧ (step envRegisterNoContact "call1" []
        (.responseRequired 2 [⟨"user", "yes"⟩])).frames =
      [.response 2 (registeredText "DEL-0") true false] :=
  ⟨by decide, by decide, by decide⟩

end Vani
